import Mathlib

/-!
Verification of the realtime chat synchronization client
(`src/services/websocket.js`, the `WebSocketService` class, and
`src/components/ChatWindow.jsx`, the conversation synchronizer).

The JavaScript code is shallowly embedded: each handler/method becomes a
pure Lean function on an explicit state record; the browser's event
delivery (socket `onopen` / `onclose` callbacks, timer expirations, push
frames) is modelled as an explicit event alphabet folded over the state.
Outbound I/O (frames written to the socket, timers scheduled) is returned
as a list of actions instead of being performed.
-/

namespace ChatApp

/-! ## Data model -/

/-- A chat message as the frontend sees it: server id, the sender's user id
(`message.sender.id` in the source), text, and the read flag (`is_read`). -/
structure Message where
  id : Nat
  senderId : Nat
  text : String
  is_read : Bool
deriving DecidableEq, Repr

/-- Browser `WebSocket.readyState` values. -/
inductive ReadyState
  | CONNECTING
  | OPEN
  | CLOSING
  | CLOSED
deriving DecidableEq, Repr

/-- The `WebSocket` object held in `this.socket`: its URL and ready state. -/
structure Socket where
  url : String
  readyState : ReadyState
deriving DecidableEq, Repr

/-- Outbound frames. The source serializes these with `JSON.stringify`;
the JSON encoding is abstracted to the typed payload. -/
inductive Frame
  | chat_message (message : String)
  | typing (is_typing : Bool)
  | read_receipt (message_id : Nat)
deriving DecidableEq, Repr

/-- A registered listener. JS `Set` iterates in insertion order, so a
registry is a list; `throws` models whether the callback raises when
invoked (the behaviour relevant to dispatch isolation). -/
structure Listener where
  id : Nat
  throws : Bool
deriving DecidableEq, Repr

/-- The mutable fields of the `WebSocketService` singleton. -/
structure WSState where
  socket : Option Socket
  reconnectAttempts : Nat
  messageHandlers : List Listener
  typingHandlers : List Listener
  connectionHandlers : List Listener
deriving DecidableEq, Repr

/-- Constructor state: `socket = null`, `reconnectAttempts = 0`, empty
handler sets. -/
def initialWSState : WSState :=
  { socket := none
    reconnectAttempts := 0
    messageHandlers := []
    typingHandlers := []
    connectionHandlers := [] }

/-- `this.maxReconnectAttempts` in the constructor. -/
def maxReconnectAttempts : Nat := 5

/-- `this.reconnectDelay` in the constructor (milliseconds). -/
def reconnectDelay : Nat := 3000

/-! ## WebSocketService operations (src/services/websocket.js) -/

/-- The URL built in `connect`:
`ws://localhost:8000/ws/chat/<roomId>/?token=<token>`. -/
def wsUrl (roomId token : String) : String :=
  "ws://localhost:8000/ws/chat/" ++ roomId ++ "/?token=" ++ token

/-- `disconnect()`: closes any live socket, nulls `this.socket`, and clears
all three handler sets. (The `socket.close()` call makes the browser fire
that socket's `close` event later; that delivery is a separate trace
event, `WSEvent.closeEvt`.) -/
def disconnect (s : WSState) : WSState :=
  { socket := none
    reconnectAttempts := s.reconnectAttempts
    messageHandlers := []
    typingHandlers := []
    connectionHandlers := [] }

/-- `connect(roomId, token)`: if a socket exists, `disconnect()` first;
then create a new `WebSocket` at `wsUrl roomId token`. There is no
validation of `roomId` or `token` in the source. -/
def connect (s : WSState) (roomId token : String) : WSState :=
  let s1 := if s.socket.isSome then disconnect s else s
  { s1 with socket := some { url := wsUrl roomId token, readyState := ReadyState.CONNECTING } }

/-- `this.socket && this.socket.readyState === WebSocket.OPEN`. -/
def socketOpen (s : WSState) : Bool :=
  match s.socket with
  | some sock => sock.readyState == ReadyState.OPEN
  | none => false

/-- `sendMessage(text)`: if the socket is open, transmit the chat frame and
return `true`; otherwise return `false` and transmit nothing. -/
def sendMessage (s : WSState) (text : String) : Bool × List Frame :=
  if socketOpen s then
    (true, [Frame.chat_message text])
  else
    (false, [])

/-- `sendTyping(isTyping)`: transmit only when the socket is open. -/
def sendTyping (s : WSState) (isTyping : Bool) : List Frame :=
  if socketOpen s then [Frame.typing isTyping] else []

/-- `sendReadReceipt(messageId)`: transmit only when the socket is open. -/
def sendReadReceipt (s : WSState) (messageId : Nat) : List Frame :=
  if socketOpen s then [Frame.read_receipt messageId] else []

/-- `isConnected()`. -/
def isConnected (s : WSState) : Bool := socketOpen s

/-! ## Dispatch (notifyMessageHandlers and the onmessage wrapper) -/

/-- `handlers.forEach(handler => handler(payload))` under JS exception
semantics: callbacks run in insertion order; a throwing callback ends the
iteration and the exception escapes the `forEach`. Returns the
invocations performed (listener id paired with the payload it received)
and whether an exception escaped. -/
def forEachInvoke (payload : Nat) : List Listener → List (Nat × Nat) × Bool
  | [] => ([], false)
  | h :: hs =>
    if h.throws then ([(h.id, payload)], true)
    else
      let r := forEachInvoke payload hs
      ((h.id, payload) :: r.1, r.2)

/-- The `chat_message` branch of `socket.onmessage`: fan the payload out to
`this.messageHandlers`. The whole handler body sits inside
`try { ... } catch (error) { console.error(...) }`, so an exception
escaping the `forEach` is caught there; the service state is never
modified by dispatch. Returns the (unchanged) state, the invocations, and
whether a listener exception was raised (and caught). -/
def dispatchChatMessage (s : WSState) (payload : Nat) :
    WSState × (List (Nat × Nat) × Bool) :=
  (s, forEachInvoke payload s.messageHandlers)

/-! ## Connection lifecycle events -/

/-- Side effects the lifecycle handlers request: notifying the
`connectionHandlers` with a status tag, and `setTimeout`-scheduling a
`connect(roomId, token)` call after `delayMs`. -/
inductive WSAction
  | notifyConnection (status : String)
  | scheduleConnect (delayMs : Nat) (roomId token : String)
deriving DecidableEq, Repr

/-- Whether an action is a scheduled reconnect. -/
def WSAction.isSchedule : WSAction → Bool
  | .scheduleConnect _ _ _ => true
  | _ => false

/-- Set the current socket's ready state (what the browser does before
firing a lifecycle handler). -/
def setReady (s : WSState) (r : ReadyState) : WSState :=
  { s with socket := s.socket.map (fun sock => { sock with readyState := r }) }

/-- `socket.onopen`: reset `reconnectAttempts` to 0 and notify the
connection handlers with `connected`. The browser has already moved the
socket to OPEN. -/
def onOpen (s : WSState) : WSState × List WSAction :=
  ({ setReady s ReadyState.OPEN with reconnectAttempts := 0 },
   [WSAction.notifyConnection "connected"])

/-- `socket.onclose`: notify `disconnected`; then, if
`reconnectAttempts < maxReconnectAttempts`, increment the counter and
schedule `connect(roomId, token)` after `reconnectDelay` ms. `roomId` and
`token` are the values captured by the handler's closure. The handler does
not distinguish why the socket closed. -/
def onClose (s : WSState) (roomId token : String) : WSState × List WSAction :=
  if s.reconnectAttempts < maxReconnectAttempts then
    ({ s with reconnectAttempts := s.reconnectAttempts + 1 },
     [WSAction.notifyConnection "disconnected",
      WSAction.scheduleConnect reconnectDelay roomId token])
  else
    (s, [WSAction.notifyConnection "disconnected"])

/-- Events driving the connection manager: explicit API calls and the
browser-delivered lifecycle callbacks. A `closeEvt` carries the
`roomId`/`token` captured by the closing socket's `onclose` closure; it is
fired both for unexpected closes and for closes caused by
`disconnect()`'s own `socket.close()`. -/
inductive WSEvent
  | connectCall (roomId token : String)
  | disconnectCall
  | openEvt
  | closeEvt (roomId token : String)
deriving DecidableEq, Repr

/-- One step of the connection manager. -/
def wsStep (s : WSState) : WSEvent → WSState × List WSAction
  | .connectCall r t => (connect s r t, [])
  | .disconnectCall => (disconnect s, [])
  | .openEvt => onOpen s
  | .closeEvt r t => onClose (setReady s ReadyState.CLOSED) r t

/-- Run a sequence of events, accumulating the requested actions. -/
def wsRun (s : WSState) : List WSEvent → WSState × List WSAction
  | [] => (s, [])
  | e :: es =>
    let r := wsStep s e
    let r' := wsRun r.1 es
    (r'.1, r.2 ++ r'.2)

/-- A burst of `n` consecutive close events (no intervening open), counting
how many reconnects get scheduled. -/
def closeBurst (roomId token : String) : WSState → Nat → WSState × Nat
  | s, 0 => (s, 0)
  | s, n + 1 =>
    let r := wsStep s (WSEvent.closeEvt roomId token)
    let r' := closeBurst roomId token r.1 n
    (r'.1, (r.2.filter WSAction.isSchedule).length + r'.2)

/-! ## Conversation synchronizer (src/components/ChatWindow.jsx) -/

/-- The `read_receipt` branch of the `onMessage` listener: mark the message
with the given id as read; never insert. -/
def applyReadReceiptEvt (msgs : List Message) (message_id : Nat) : List Message :=
  msgs.map (fun m => if m.id == message_id then { m with is_read := true } else m)

/-- The chat-message branch of the `onMessage` listener's `setMessages`
updater: if some stored message already has the incoming id, return the
previous list unchanged; otherwise append the incoming message. -/
def applyChatMessage (msgs : List Message) (m : Message) : List Message :=
  if msgs.any (fun x => x.id == m.id) then msgs else msgs ++ [m]

/-- After the `setMessages` call the listener requests a read receipt
whenever `message.sender.id !== currentUser?.id` — unconditionally on the
arrival, whether or not the id was already stored. -/
def readReceiptRequests (currentUserId : Nat) (m : Message) : List Nat :=
  if m.senderId ≠ currentUserId then [m.id] else []

/-- The HTTP fallback of `handleSendMessage`: the response message is
appended with no duplicate check (`setMessages(prev => [...prev, newMessage])`). -/
def applyHttpSendResult (msgs : List Message) (newMessage : Message) : List Message :=
  msgs ++ [newMessage]

/-- `setMessages(Array.isArray(messagesData) ? messagesData : [])` in
`loadMessages`: a non-array body becomes the empty list. -/
def normalizeMessages : Option (List Message) → List Message
  | some l => l
  | none => []

/-- Component state relevant to reconciliation: the active room and the
`messages` state variable. -/
structure SyncState where
  roomId : Nat
  messages : List Message
deriving DecidableEq, Repr

/-- Events applied to the component state. `bulkLoad tag data` is the
resolution of a `loadMessages` fetch that was issued for room `tag`; the
source applies the result without comparing `tag` to the room that is
active when the response arrives. -/
inductive SyncOp
  | bulkLoad (tag : Nat) (data : List Message)
  | pushMessage (m : Message)
  | httpSendResult (m : Message)
  | readReceiptEvt (message_id : Nat)
  | switchRoom (r : Nat)
deriving DecidableEq, Repr

/-- One step of the synchronizer: the new state plus the read-receipt send
requests issued to the service during the step. -/
def syncStep (uid : Nat) (s : SyncState) : SyncOp → SyncState × List Nat
  | .bulkLoad _tag data => ({ s with messages := data }, [])
  | .pushMessage m =>
      ({ s with messages := applyChatMessage s.messages m }, readReceiptRequests uid m)
  | .httpSendResult m => ({ s with messages := applyHttpSendResult s.messages m }, [])
  | .readReceiptEvt mid => ({ s with messages := applyReadReceiptEvt s.messages mid }, [])
  | .switchRoom r => ({ s with roomId := r }, [])

/-- Fold a sequence of events over the state. -/
def syncRunState (uid : Nat) (s : SyncState) : List SyncOp → SyncState
  | [] => s
  | op :: ops => syncRunState uid (syncStep uid s op).1 ops

/-- All read-receipt requests issued along a run, in order. -/
def syncRunReceipts (uid : Nat) (s : SyncState) : List SyncOp → List Nat
  | [] => []
  | op :: ops =>
    (syncStep uid s op).2 ++ syncRunReceipts uid (syncStep uid s op).1 ops

/-- The receipts that a sequence of events requests, read off the events
alone: one request per `pushMessage` whose sender is not the local user. -/
def pushArrivalReceipts (uid : Nat) : List SyncOp → List Nat
  | [] => []
  | .pushMessage m :: ops => readReceiptRequests uid m ++ pushArrivalReceipts uid ops
  | _ :: ops => pushArrivalReceipts uid ops

/-- Id-based uniqueness of a view: no two stored messages share a server id. -/
def NodupIds (msgs : List Message) : Prop := (msgs.map Message.id).Nodup

instance (msgs : List Message) : Decidable (NodupIds msgs) :=
  inferInstanceAs (Decidable ((msgs.map Message.id).Nodup))

/-- A run is duplicate-safe when every bulk payload is itself free of
duplicate ids and every HTTP send response resolves while its id is not
yet stored (the HTTP path performs no duplicate check of its own). -/
def okTrace (uid : Nat) (s : SyncState) : List SyncOp → Bool
  | [] => true
  | op :: ops =>
    (match op with
      | .bulkLoad _ data => decide (NodupIds data)
      | .httpSendResult m => !(s.messages.any (fun x => x.id == m.id))
      | _ => true)
    && okTrace uid (syncStep uid s op).1 ops

/-! ## Typing debounce (handleTyping in ChatWindow.jsx) -/

/-- `setTimeout(..., 3000)` delay in `handleTyping`. -/
def typingStopDelay : Nat := 3000

/-- The debounce state: whether `typingTimeoutRef.current` holds a timeout
that has been neither cleared nor fired. -/
structure TypingState where
  timerPending : Bool
deriving DecidableEq, Repr

/-- `handleTyping()`: return immediately when the service is not connected;
otherwise send `typing(true)` (on every keystroke), clear any pending
timeout, and schedule a fresh stop timeout. -/
def handleTyping (ws : WSState) (s : TypingState) : TypingState × List Frame :=
  if !isConnected ws then (s, [])
  else ({ timerPending := true }, sendTyping ws true)

/-- The stop timeout firing: send `typing(false)`. -/
def typingTimerFire (ws : WSState) (_s : TypingState) : TypingState × List Frame :=
  ({ timerPending := false }, sendTyping ws false)

/-- Local typing events: a keystroke (the input's `onChange` calling
`handleTyping`) or the expiry of the currently pending stop timeout. An
expiry with no pending timeout does nothing (the timeout was cleared). -/
inductive TypingEvent
  | key
  | timeout
deriving DecidableEq, Repr

/-- One typing step. -/
def typingStep (ws : WSState) (s : TypingState) : TypingEvent → TypingState × List Frame
  | .key => handleTyping ws s
  | .timeout => if s.timerPending then typingTimerFire ws s else (s, [])

/-- Run a sequence of typing events, accumulating the outbound frames. -/
def typingRun (ws : WSState) (s : TypingState) : List TypingEvent → TypingState × List Frame
  | [] => (s, [])
  | e :: es =>
    let r := typingStep ws s e
    let r' := typingRun ws r.1 es
    (r'.1, r.2 ++ r'.2)

/-- Number of `typing(true)` frames in an outbound sequence. -/
def countStarts (fs : List Frame) : Nat :=
  (fs.filter (fun f => f == Frame.typing true)).length

/-- Number of `typing(false)` frames in an outbound sequence. -/
def countStops (fs : List Frame) : Nat :=
  (fs.filter (fun f => f == Frame.typing false)).length

/-! ## Concrete fixtures -/

/-- Message A of the bulk-load scenario. -/
def mA : Message := { id := 1, senderId := 10, text := "hello", is_read := false }

/-- Message B of the bulk-load scenario. -/
def mB : Message := { id := 2, senderId := 11, text := "world", is_read := false }

/-- A redelivery of message A with updated text (same id). -/
def mA2 : Message := { id := 1, senderId := 10, text := "hello edited", is_read := false }

/-- A fresh message with an id not in the fixtures above. -/
def mC : Message := { id := 3, senderId := 11, text := "third", is_read := false }

/-- The server echo of a local send, id 42, authored by the local user 10. -/
def m42 : Message := { id := 42, senderId := 10, text := "hi", is_read := false }

/-- A message from another user, used for read-receipt scenarios. -/
def mOther : Message := { id := 7, senderId := 2, text := "ping", is_read := false }

/-- Bulk-load content of room 1. -/
def r1msg : Message := { id := 101, senderId := 10, text := "room one history", is_read := false }

/-- Bulk-load content of room 2. -/
def r2msg : Message := { id := 201, senderId := 20, text := "room two history", is_read := false }

/-- A service state whose socket is open on room 1. -/
def wsOpenState : WSState :=
  { socket := some { url := wsUrl "1" "tok", readyState := ReadyState.OPEN }
    reconnectAttempts := 0
    messageHandlers := []
    typingHandlers := []
    connectionHandlers := [] }

/-- A service state with an open socket and one registered listener of each
category. -/
def wsWithListener : WSState :=
  { socket := some { url := wsUrl "1" "tok", readyState := ReadyState.OPEN }
    reconnectAttempts := 0
    messageHandlers := [{ id := 1, throws := false }]
    typingHandlers := [{ id := 2, throws := false }]
    connectionHandlers := [{ id := 3, throws := false }] }

/-- A service state whose message registry holds a throwing listener
followed by a well-behaved one. -/
def wsThrowingFirst : WSState :=
  { socket := some { url := wsUrl "1" "tok", readyState := ReadyState.OPEN }
    reconnectAttempts := 0
    messageHandlers := [{ id := 1, throws := true }, { id := 2, throws := false }]
    typingHandlers := []
    connectionHandlers := [] }

/-! ## Helper lemmas -/

theorem syncRunState_append (uid : Nat) (ops₁ ops₂ : List SyncOp) (s : SyncState) :
    syncRunState uid s (ops₁ ++ ops₂) = syncRunState uid (syncRunState uid s ops₁) ops₂ := by
  induction ops₁ generalizing s with
  | nil => rfl
  | cons op ops ih => simp [syncRunState, ih]

/-! ## Claim C1 -/

/-- C1 counterexample: after a bulk load of `[A, B]`, a push redelivering
A's id with updated text leaves the view exactly `[A, B]` — length 2, but
with A's original content; the arriving payload's text appears nowhere.
The claim that the stored message is replaced by the arriving payload is
therefore false. -/
theorem C1_counterexample :
    applyChatMessage [mA, mB] mA2 = [mA, mB] ∧
    (applyChatMessage [mA, mB] mA2).length = 2 ∧
    ((applyChatMessage [mA, mB] mA2).any fun m => m.text == mA2.text) = false ∧
    mA2.text ≠ mA.text := by
  decide

/-- C1 amended: for every inbound ChatMessage push event whose id already
exists in the view, the event is discarded and the stored entry is kept
unchanged (not replaced); for every event whose id is not present, the
message is appended. -/
theorem C1_duplicate_discarded_new_appended (msgs : List Message) (m : Message) :
    ((msgs.any fun x => x.id == m.id) = true → applyChatMessage msgs m = msgs) ∧
    ((msgs.any fun x => x.id == m.id) = false → applyChatMessage msgs m = msgs ++ [m]) := by
  constructor <;> intro h <;> simp [applyChatMessage, h]

/-- C1 witness: both branches of the amended claim at concrete inputs. -/
theorem C1_witness :
    applyChatMessage [mA, mB] mA2 = [mA, mB] ∧ applyChatMessage [mB] mA2 = [mB, mA2] :=
  ⟨(C1_duplicate_discarded_new_appended [mA, mB] mA2).1 (by decide),
   (C1_duplicate_discarded_new_appended [mB] mA2).2 (by decide)⟩

/-! ## Claim C3 -/

/-- C3 counterexample: starting in room 1, switch to room 2, room 2's bulk
load resolves (view = room 2 history), then room 1's stale bulk load
resolves. The stale response is applied, not discarded: the final view is
room 1's data even though room 2 is active. -/
theorem C3_counterexample :
    syncRunState 5 { roomId := 1, messages := [] }
        [SyncOp.switchRoom 2, SyncOp.bulkLoad 2 [r2msg], SyncOp.bulkLoad 1 [r1msg]] =
      { roomId := 2, messages := [r1msg] } ∧
    r1msg ≠ r2msg := by
  decide

/-- C3 amended: a resolving bulk load is applied unconditionally — there is
no conversation-id tagging or staleness check — so after any sequence of
events, a bulk load tagged for any room (stale or not) replaces the
current message list with its payload while leaving the active room id
unchanged. -/
theorem C3_stale_load_overwrites (uid : Nat) (s : SyncState) (ops : List SyncOp)
    (tag : Nat) (data : List Message) :
    (syncRunState uid s (ops ++ [SyncOp.bulkLoad tag data])).messages = data ∧
    (syncRunState uid s (ops ++ [SyncOp.bulkLoad tag data])).roomId =
      (syncRunState uid s ops).roomId := by
  rw [syncRunState_append]
  exact ⟨rfl, rfl⟩

/-! ## Claim C8 -/

/-- C8 counterexample: `connect` with empty room id and token is not a
no-op. From the initial state it opens a CONNECTING socket whose URL
embeds the empty values; on a state with a live socket and registered
listeners it additionally clears the registries. -/
theorem C8_counterexample :
    connect initialWSState "" "" ≠ initialWSState ∧
    (connect initialWSState "" "").socket =
      some { url := wsUrl "" "", readyState := ReadyState.CONNECTING } ∧
    connect wsWithListener "" "" ≠ wsWithListener ∧
    (connect wsWithListener "" "").messageHandlers = [] := by
  decide

/-- C8 amended: `connect(conversationId, authToken)` performs no validation
of its arguments. Whatever the arguments — empty strings included — it
tears down any existing socket (clearing all three registries) and
installs a new CONNECTING socket whose URL embeds the given values; when
no socket existed, the registries are left as they were. -/
theorem C8_connect_never_validates (s : WSState) (roomId token : String) :
    (connect s roomId token).socket =
      some { url := wsUrl roomId token, readyState := ReadyState.CONNECTING } ∧
    (connect s roomId token).reconnectAttempts = s.reconnectAttempts ∧
    (s.socket.isSome = true →
      (connect s roomId token).messageHandlers = [] ∧
      (connect s roomId token).typingHandlers = [] ∧
      (connect s roomId token).connectionHandlers = []) ∧
    (s.socket.isSome = false →
      (connect s roomId token).messageHandlers = s.messageHandlers ∧
      (connect s roomId token).typingHandlers = s.typingHandlers ∧
      (connect s roomId token).connectionHandlers = s.connectionHandlers) := by
  cases h : s.socket <;>
    simp [connect, disconnect, h]

/-- C8 witness: the amended claim at concrete states, one with a live
socket and one without. -/
theorem C8_witness :
    (connect wsWithListener "1" "tok").messageHandlers = [] ∧
    (connect initialWSState "1" "tok").messageHandlers = initialWSState.messageHandlers :=
  ⟨((C8_connect_never_validates wsWithListener "1" "tok").2.2.1 (by decide)).1,
   ((C8_connect_never_validates initialWSState "1" "tok").2.2.2 (by decide)).1⟩

/-! ## Claim C9 -/

/-- C9: `sendMessage` returns `true` exactly when a socket exists and its
ready state is OPEN, in which case the chat frame is transmitted; in every
other state it returns `false` and transmits nothing. -/
theorem C9_send_true_iff_open (s : WSState) (text : String) :
    ((sendMessage s text).1 = true ↔ socketOpen s = true) ∧
    (socketOpen s = true ↔ ∃ sock, s.socket = some sock ∧ sock.readyState = ReadyState.OPEN) ∧
    (socketOpen s = true → sendMessage s text = (true, [Frame.chat_message text])) ∧
    (socketOpen s = false → sendMessage s text = (false, [])) := by
  refine ⟨?_, ?_, ?_, ?_⟩
  · cases h : socketOpen s <;> simp [sendMessage, h]
  · cases h : s.socket with
    | none => simp [socketOpen, h]
    | some sock => simp [socketOpen, h, beq_iff_eq]
  · intro h; simp [sendMessage, h]
  · intro h; simp [sendMessage, h]

/-- C9 witness: the open and closed branches at concrete states. -/
theorem C9_witness :
    sendMessage wsOpenState "hi" = (true, [Frame.chat_message "hi"]) ∧
    sendMessage initialWSState "hi" = (false, []) :=
  ⟨(C9_send_true_iff_open wsOpenState "hi").2.2.1 (by decide),
   (C9_send_true_iff_open initialWSState "hi").2.2.2 (by decide)⟩

/-! ## Claim C10 -/

/-- C10: any `connect` made while a socket object exists first runs
`disconnect`, emptying all three registries, so dispatch after the
reconnect reaches no previously registered listener; and the close handler
itself does not null the socket, so the automatic reconnect it schedules
does find an existing socket. -/
theorem C10_reconnect_clears_registries (s : WSState) (roomId token : String) (p : Nat)
    (h : s.socket.isSome = true) :
    (connect s roomId token).messageHandlers = [] ∧
    (connect s roomId token).typingHandlers = [] ∧
    (connect s roomId token).connectionHandlers = [] ∧
    (forEachInvoke p (connect s roomId token).messageHandlers).1 = [] ∧
    (wsStep s (WSEvent.closeEvt roomId token)).1.socket.isSome = true := by
  refine ⟨?_, ?_, ?_, ?_, ?_⟩ <;>
    simp [connect, disconnect, h, wsStep, onClose, setReady, forEachInvoke]
  · split <;> simp [Option.isSome_map, h]

/-- C10 witness: the claim applied to a state with an open socket and one
listener of each category. -/
theorem C10_witness :
    (connect wsWithListener "1" "tok").messageHandlers = [] ∧
    (connect wsWithListener "1" "tok").typingHandlers = [] ∧
    (connect wsWithListener "1" "tok").connectionHandlers = [] ∧
    (forEachInvoke 99 (connect wsWithListener "1" "tok").messageHandlers).1 = [] ∧
    (wsStep wsWithListener (WSEvent.closeEvt "1" "tok")).1.socket.isSome = true :=
  C10_reconnect_clears_registries wsWithListener "1" "tok" 99 (by decide)

/-! ## Dispatch lemmas (for C7) -/

theorem forEachInvoke_all_ok (p : Nat) (hs : List Listener)
    (h : ∀ g ∈ hs, g.throws = false) :
    forEachInvoke p hs = (hs.map (fun g => (g.id, p)), false) := by
  induction hs with
  | nil => rfl
  | cons a hs ih =>
    have ha : a.throws = false := h a (List.mem_cons_self a hs)
    have h' : ∀ g ∈ hs, g.throws = false := fun g hg => h g (List.mem_cons_of_mem a hg)
    simp [forEachInvoke, ha, ih h']

theorem forEachInvoke_stops_at_throw (p : Nat) (hs₁ : List Listener) (h : Listener)
    (hs₂ : List Listener) (hok : ∀ g ∈ hs₁, g.throws = false) (hth : h.throws = true) :
    forEachInvoke p (hs₁ ++ h :: hs₂) =
      (hs₁.map (fun g => (g.id, p)) ++ [(h.id, p)], true) := by
  induction hs₁ with
  | nil => simp [forEachInvoke, hth]
  | cons a hs ih =>
    have ha : a.throws = false := hok a (List.mem_cons_self a hs)
    have h' : ∀ g ∈ hs, g.throws = false := fun g hg => hok g (List.mem_cons_of_mem a hg)
    simp [forEachInvoke, ha, ih h']

theorem forEachInvoke_payload (p : Nat) (hs : List Listener) :
    ∀ x ∈ (forEachInvoke p hs).1, x.2 = p := by
  induction hs with
  | nil => simp [forEachInvoke]
  | cons a hs ih =>
    intro x hx
    by_cases ha : a.throws = true
    · simp [forEachInvoke, ha] at hx
      subst hx; rfl
    · rw [Bool.not_eq_true] at ha
      simp [forEachInvoke, ha] at hx
      rcases hx with hx | hx
      · subst hx; rfl
      · exact ih x hx

/-! ## Claim C7 -/

/-- C7 counterexample: the message registry holds two listeners of the
matching category; the first throws when invoked. Dispatching one decoded
event invokes only the first listener — the second, still-registered
listener is never notified, so an exception in one listener does prevent
the remaining listeners from being notified. -/
theorem C7_counterexample :
    wsThrowingFirst.messageHandlers.length = 2 ∧
    (dispatchChatMessage wsThrowingFirst 99).2.1 = [(1, 99)] ∧
    (2, 99) ∉ (dispatchChatMessage wsThrowingFirst 99).2.1 := by
  decide

/-- C7 amended: listeners are invoked in registration order, each with the
same payload, up to and including the first listener that throws;
listeners registered after it are skipped for that event. The exception is
caught by the `onmessage` handler's try/catch, so the manager survives and
its state (the registries in particular) is unchanged. When no listener
throws, all listeners are notified. -/
theorem C7_throw_aborts_dispatch (s : WSState) (p : Nat) (hs₁ : List Listener)
    (h : Listener) (hs₂ : List Listener)
    (hok : ∀ g ∈ hs₁, g.throws = false) (hth : h.throws = true) :
    (dispatchChatMessage s p).1 = s ∧
    (∀ x ∈ (dispatchChatMessage s p).2.1, x.2 = p) ∧
    ((∀ g ∈ s.messageHandlers, g.throws = false) →
      (dispatchChatMessage s p).2 = (s.messageHandlers.map (fun g => (g.id, p)), false)) ∧
    (s.messageHandlers = hs₁ ++ h :: hs₂ →
      (dispatchChatMessage s p).2 = (hs₁.map (fun g => (g.id, p)) ++ [(h.id, p)], true)) := by
  refine ⟨rfl, forEachInvoke_payload p s.messageHandlers, ?_, ?_⟩
  · intro hall
    exact forEachInvoke_all_ok p s.messageHandlers hall
  · intro heq
    show forEachInvoke p s.messageHandlers = _
    rw [heq]
    exact forEachInvoke_stops_at_throw p hs₁ h hs₂ hok hth

/-- C7 witness: the amended claim at the concrete registry
`[throwing listener 1, well-behaved listener 2]`. -/
theorem C7_witness :
    (dispatchChatMessage wsThrowingFirst 99).2 = ([(1, 99)], true) :=
  (C7_throw_aborts_dispatch wsThrowingFirst 99 [] { id := 1, throws := true }
      [{ id := 2, throws := false }] (by simp) (by decide)).2.2.2 (by decide)

/-! ## Id-uniqueness lemmas (for C2) -/

theorem anyId_eq_true_iff (msgs : List Message) (i : Nat) :
    (msgs.any fun x => x.id == i) = true ↔ i ∈ msgs.map Message.id := by
  simp only [List.any_eq_true, List.mem_map, beq_iff_eq]

theorem nodupIds_append (msgs : List Message) (m : Message)
    (h1 : NodupIds msgs) (h2 : m.id ∉ msgs.map Message.id) :
    NodupIds (msgs ++ [m]) := by
  unfold NodupIds at *
  simp [List.nodup_append, h1, h2]

theorem nodupIds_applyChatMessage (msgs : List Message) (m : Message) (h : NodupIds msgs) :
    NodupIds (applyChatMessage msgs m) := by
  unfold applyChatMessage
  split
  · exact h
  · rename_i hf
    refine nodupIds_append msgs m h (fun hmem => hf ?_)
    exact (anyId_eq_true_iff msgs m.id).2 hmem

theorem ids_applyReadReceiptEvt (msgs : List Message) (mid : Nat) :
    (applyReadReceiptEvt msgs mid).map Message.id = msgs.map Message.id := by
  unfold applyReadReceiptEvt
  rw [List.map_map]
  apply List.map_congr_left
  intro m _
  simp only [Function.comp]
  split <;> rfl

theorem nodupIds_applyReadReceiptEvt (msgs : List Message) (mid : Nat) (h : NodupIds msgs) :
    NodupIds (applyReadReceiptEvt msgs mid) := by
  unfold NodupIds
  rw [ids_applyReadReceiptEvt]
  exact h

/-! ## Claim C2 -/

/-- C2 counterexample: a local send whose server echo (id 42) arrives first
through the push channel (appended by the deduplicating push path) and
then through the HTTP response path (appended unconditionally by
`handleSendMessage`'s fallback) leaves the view with id 42 stored twice. -/
theorem C2_counterexample :
    (syncRunState 10 { roomId := 1, messages := [] }
        [SyncOp.pushMessage m42, SyncOp.httpSendResult m42]).messages = [m42, m42] ∧
    ¬ NodupIds (syncRunState 10 { roomId := 1, messages := [] }
        [SyncOp.pushMessage m42, SyncOp.httpSendResult m42]).messages := by
  decide

/-- C2 amended: the bulk-load and push-arrival paths preserve id-based
uniqueness (the push path checks before appending; a read-receipt event
only flips a flag; a room switch leaves the list alone), so the view has
at most one message per id for every sequence in which each bulk payload
is duplicate-free and each HTTP send response resolves while its id is not
yet stored. The HTTP path itself appends with no duplicate check, which is
exactly what the counterexample exploits. -/
theorem C2_nodup_ids_conditional (uid : Nat) (ops : List SyncOp) (s : SyncState)
    (h0 : NodupIds s.messages) (hok : okTrace uid s ops = true) :
    NodupIds (syncRunState uid s ops).messages := by
  induction ops generalizing s with
  | nil => exact h0
  | cons op ops ih =>
    simp only [okTrace, Bool.and_eq_true] at hok
    obtain ⟨hpre, hrest⟩ := hok
    cases op with
    | bulkLoad tag data =>
      exact ih _ (of_decide_eq_true hpre) hrest
    | pushMessage m =>
      exact ih _ (nodupIds_applyChatMessage s.messages m h0) hrest
    | httpSendResult m =>
      rw [Bool.not_eq_true'] at hpre
      refine ih _ (nodupIds_append s.messages m h0 (fun hmem => ?_)) hrest
      rw [(anyId_eq_true_iff s.messages m.id).2 hmem] at hpre
      exact Bool.noConfusion hpre
    | readReceiptEvt mid =>
      exact ih _ (nodupIds_applyReadReceiptEvt s.messages mid h0) hrest
    | switchRoom r =>
      exact ih _ h0 hrest

/-- C2 witness: a duplicate-safe run — bulk load `[A, B]`, a push
redelivering A's id, and an HTTP send response with a fresh id — ends with
a duplicate-free view. -/
theorem C2_witness :
    NodupIds (syncRunState 10 { roomId := 1, messages := [] }
        [SyncOp.bulkLoad 1 [mA, mB], SyncOp.pushMessage mA2,
         SyncOp.httpSendResult mC]).messages :=
  C2_nodup_ids_conditional 10 _ _ (by decide) (by decide)

/-! ## Reconnection lemmas (for C4) -/

theorem setReady_attempts (s : WSState) (r : ReadyState) :
    (setReady s r).reconnectAttempts = s.reconnectAttempts := rfl

theorem closeBurst_count (roomId token : String) :
    ∀ (n : Nat) (s : WSState),
      (closeBurst roomId token s n).2 =
        min n (maxReconnectAttempts - s.reconnectAttempts) := by
  intro n
  induction n with
  | zero => intro s; simp [closeBurst]
  | succ k ih =>
    intro s
    simp only [closeBurst, wsStep, onClose, setReady_attempts]
    split
    · rename_i hlt
      rw [ih]
      simp only [setReady_attempts]
      simp only [List.filter, WSAction.isSchedule, List.length_cons, List.length_nil]
      unfold maxReconnectAttempts at *
      omega
    · rename_i hge
      rw [ih]
      simp only [setReady_attempts]
      simp only [List.filter, WSAction.isSchedule, List.length_cons, List.length_nil]
      unfold maxReconnectAttempts at *
      omega

/-! ## Claim C4 -/

/-- C4 counterexample: after `connect`, an open, and then an explicit
`disconnect()` (so the service's socket is null and the only close in
flight is the one `disconnect`'s own `socket.close()` caused), the
delivery of that close event still schedules an automatic
`connect("1","tok")` after 3000 ms. Reconnects are therefore not limited
to closes that were not caused by an explicit `disconnect()`. -/
theorem C4_counterexample :
    (wsRun initialWSState
        [WSEvent.connectCall "1" "tok", WSEvent.openEvt, WSEvent.disconnectCall]).1.socket =
      none ∧
    WSAction.scheduleConnect 3000 "1" "tok" ∈
      (wsRun initialWSState
          [WSEvent.connectCall "1" "tok", WSEvent.openEvt, WSEvent.disconnectCall,
           WSEvent.closeEvt "1" "tok"]).2 := by
  decide

/-- C4 amended: the close handler schedules a reconnect (constant 3000 ms
delay, same room and token) on every close event — including one caused by
an explicit `disconnect()` — whenever the retry counter is below 5,
incrementing the counter; at or above 5 it only notifies and schedules
nothing; an open resets the counter to zero; and over any burst of `n`
consecutive close events with no intervening open, starting from a zero
counter, exactly `min n 5` reconnects are scheduled. -/
theorem C4_reconnect_on_every_close (roomId token : String) :
    (∀ s : WSState, s.reconnectAttempts < maxReconnectAttempts →
      wsStep s (WSEvent.closeEvt roomId token) =
        ({ setReady s ReadyState.CLOSED with
             reconnectAttempts := s.reconnectAttempts + 1 },
         [WSAction.notifyConnection "disconnected",
          WSAction.scheduleConnect reconnectDelay roomId token])) ∧
    (∀ s : WSState, maxReconnectAttempts ≤ s.reconnectAttempts →
      wsStep s (WSEvent.closeEvt roomId token) =
        (setReady s ReadyState.CLOSED, [WSAction.notifyConnection "disconnected"])) ∧
    (∀ s : WSState, (wsStep s WSEvent.openEvt).1.reconnectAttempts = 0) ∧
    (∀ (s : WSState) (n : Nat), s.reconnectAttempts = 0 →
      (closeBurst roomId token s n).2 = min n maxReconnectAttempts) ∧
    reconnectDelay = 3000 ∧ maxReconnectAttempts = 5 := by
  refine ⟨?_, ?_, ?_, ?_, rfl, rfl⟩
  · intro s h
    simp [wsStep, onClose, setReady_attempts, h]
  · intro s h
    simp [wsStep, onClose, setReady_attempts, Nat.not_lt.mpr h]
  · intro s
    rfl
  · intro s n h
    rw [closeBurst_count roomId token n s, h, Nat.sub_zero]

/-- C4 witness: the amended claim at concrete states — the first close from
a zero counter schedules a reconnect, a close at the ceiling schedules
nothing, and a burst of 7 closes schedules `min 7 5 = 5` reconnects. -/
theorem C4_witness :
    wsStep initialWSState (WSEvent.closeEvt "1" "tok") =
      ({ setReady initialWSState ReadyState.CLOSED with reconnectAttempts := 1 },
       [WSAction.notifyConnection "disconnected",
        WSAction.scheduleConnect reconnectDelay "1" "tok"]) ∧
    wsStep { initialWSState with reconnectAttempts := 5 } (WSEvent.closeEvt "1" "tok") =
      (setReady { initialWSState with reconnectAttempts := 5 } ReadyState.CLOSED,
       [WSAction.notifyConnection "disconnected"]) ∧
    (closeBurst "1" "tok" initialWSState 7).2 = min 7 maxReconnectAttempts :=
  ⟨(C4_reconnect_on_every_close "1" "tok").1 initialWSState (by decide),
   (C4_reconnect_on_every_close "1" "tok").2.1 _ (by decide),
   (C4_reconnect_on_every_close "1" "tok").2.2.2.1 initialWSState 7 (by decide)⟩

/-! ## Typing lemmas (for C5) -/

theorem typingStep_key_connected (ws : WSState) (hw : isConnected ws = true)
    (s : TypingState) :
    typingStep ws s TypingEvent.key = ({ timerPending := true }, [Frame.typing true]) := by
  unfold isConnected at hw
  simp [typingStep, handleTyping, isConnected, hw, sendTyping]

theorem typingRun_keys (ws : WSState) (hw : isConnected ws = true) :
    ∀ n : Nat,
      typingRun ws { timerPending := true } (List.replicate n TypingEvent.key) =
        ({ timerPending := true }, List.replicate n (Frame.typing true)) := by
  intro n
  induction n with
  | zero => rfl
  | succ k ih =>
    simp [List.replicate_succ, typingRun, typingStep_key_connected ws hw, ih]

theorem typingRun_append (ws : WSState) (es₁ es₂ : List TypingEvent) (s : TypingState) :
    typingRun ws s (es₁ ++ es₂) =
      ((typingRun ws (typingRun ws s es₁).1 es₂).1,
       (typingRun ws s es₁).2 ++ (typingRun ws (typingRun ws s es₁).1 es₂).2) := by
  induction es₁ generalizing s with
  | nil => simp [typingRun]
  | cons e es ih => simp [typingRun, ih]

theorem countStarts_cons (f : Frame) (fs : List Frame) :
    countStarts (f :: fs) =
      (if f == Frame.typing true then 1 else 0) + countStarts fs := by
  unfold countStarts
  rw [List.filter_cons]
  split
  · rename_i h
    simp [h, Nat.add_comm]
  · rename_i h
    simp [h]

theorem countStops_cons (f : Frame) (fs : List Frame) :
    countStops (f :: fs) =
      (if f == Frame.typing false then 1 else 0) + countStops fs := by
  unfold countStops
  rw [List.filter_cons]
  split
  · rename_i h
    simp [h, Nat.add_comm]
  · rename_i h
    simp [h]

theorem countStarts_burst (n : Nat) :
    countStarts (List.replicate n (Frame.typing true) ++ [Frame.typing false]) = n := by
  induction n with
  | zero => rfl
  | succ k ih =>
    rw [List.replicate_succ, List.cons_append, countStarts_cons, ih]
    simp [Nat.add_comm]

theorem countStops_burst (n : Nat) :
    countStops (List.replicate n (Frame.typing true) ++ [Frame.typing false]) = 1 := by
  induction n with
  | zero => rfl
  | succ k ih =>
    rw [List.replicate_succ, List.cons_append, countStops_cons, ih]
    simp [beq_iff_eq]

/-! ## Claim C5 -/

/-- C5 counterexample: a burst of 5 keystrokes while connected, followed by
the stop timeout, emits five `typing(true)` frames — one per keystroke —
not the single start signal the claim requires (the single stop is
emitted as claimed). -/
theorem C5_counterexample :
    (typingRun wsOpenState { timerPending := false }
        (List.replicate 5 TypingEvent.key ++ [TypingEvent.timeout])).2 =
      [Frame.typing true, Frame.typing true, Frame.typing true, Frame.typing true,
       Frame.typing true, Frame.typing false] ∧
    countStarts (typingRun wsOpenState { timerPending := false }
        (List.replicate 5 TypingEvent.key ++ [TypingEvent.timeout])).2 = 5 ∧
    (5 : Nat) ≠ 1 := by
  decide

/-- C5 amended: while connected, every keystroke of a burst sends a
`typing(true)` frame (so a burst of `n` keystrokes sends `n` start
frames), each keystroke resets the pending stop timeout, and the single
timeout surviving the burst sends exactly one `typing(false)` frame; the
stop delay constant is 3000 ms. -/
theorem C5_start_sent_per_keystroke (ws : WSState) (n : Nat)
    (hw : isConnected ws = true) (hn : 0 < n) :
    typingRun ws { timerPending := false }
        (List.replicate n TypingEvent.key ++ [TypingEvent.timeout]) =
      ({ timerPending := false },
       List.replicate n (Frame.typing true) ++ [Frame.typing false]) ∧
    countStarts (typingRun ws { timerPending := false }
        (List.replicate n TypingEvent.key ++ [TypingEvent.timeout])).2 = n ∧
    countStops (typingRun ws { timerPending := false }
        (List.replicate n TypingEvent.key ++ [TypingEvent.timeout])).2 = 1 ∧
    typingStopDelay = 3000 := by
  obtain ⟨k, rfl⟩ : ∃ k, n = k + 1 := ⟨n - 1, (Nat.succ_pred_eq_of_pos hn).symm⟩
  have hrun : typingRun ws { timerPending := false }
      (List.replicate (k + 1) TypingEvent.key ++ [TypingEvent.timeout]) =
      ({ timerPending := false },
       List.replicate (k + 1) (Frame.typing true) ++ [Frame.typing false]) := by
    have hopen : socketOpen ws = true := hw
    rw [List.replicate_succ, List.cons_append]
    simp only [typingRun, typingStep_key_connected ws hw]
    rw [typingRun_append, typingRun_keys ws hw k]
    simp [typingRun, typingStep, typingTimerFire, sendTyping, hopen, List.replicate_succ]
  refine ⟨hrun, ?_, ?_, rfl⟩
  · rw [hrun]
    exact countStarts_burst (k + 1)
  · rw [hrun]
    exact countStops_burst (k + 1)

/-- C5 witness: the amended claim for a 5-keystroke burst on an open
connection. -/
theorem C5_witness :
    countStarts (typingRun wsOpenState { timerPending := false }
        (List.replicate 5 TypingEvent.key ++ [TypingEvent.timeout])).2 = 5 ∧
    countStops (typingRun wsOpenState { timerPending := false }
        (List.replicate 5 TypingEvent.key ++ [TypingEvent.timeout])).2 = 1 :=
  ⟨(C5_start_sent_per_keystroke wsOpenState 5 (by decide) (by decide)).2.1,
   (C5_start_sent_per_keystroke wsOpenState 5 (by decide) (by decide)).2.2.1⟩

/-! ## Receipt lemmas (for C6) -/

theorem syncRunReceipts_eq_pushArrivalReceipts (uid : Nat) :
    ∀ (ops : List SyncOp) (s : SyncState),
      syncRunReceipts uid s ops = pushArrivalReceipts uid ops := by
  intro ops
  induction ops with
  | nil => intro s; rfl
  | cons op ops ih =>
    intro s
    cases op <;> simp [syncRunReceipts, pushArrivalReceipts, syncStep, ih]

theorem pushArrivalReceipts_replicate (uid k : Nat) (m : Message)
    (h : m.senderId ≠ uid) :
    pushArrivalReceipts uid (List.replicate k (SyncOp.pushMessage m)) =
      List.replicate k m.id := by
  induction k with
  | zero => rfl
  | succ j ih =>
    simp [List.replicate_succ, pushArrivalReceipts, readReceiptRequests, h, ih]

/-! ## Claim C6 -/

/-- C6 counterexample: the same message from another user (id 7) pushed
twice triggers two read-receipt send requests — the dedup check inside the
`setMessages` updater does not guard the `sendReadReceipt` call that
follows it — and each request transmits a `read_receipt` frame while the
socket is open, so a duplicate push of an already-applied id does trigger
a second frame. -/
theorem C6_counterexample :
    syncRunReceipts 1 { roomId := 1, messages := [] }
        [SyncOp.pushMessage mOther, SyncOp.pushMessage mOther] =
      [mOther.id, mOther.id] ∧
    (syncRunReceipts 1 { roomId := 1, messages := [] }
        [SyncOp.pushMessage mOther, SyncOp.pushMessage mOther]).count mOther.id = 2 ∧
    sendReadReceipt wsOpenState mOther.id = [Frame.read_receipt mOther.id] ∧
    (2 : Nat) ≠ 1 := by
  decide

/-- C6 amended: a read-receipt request is issued on every push arrival of a
message whose sender is not the local user — once per arrival, not once
per distinct id — so the requests of a run are exactly one per
foreign-sender push event, and `k` duplicate pushes of the same foreign
message yield `k` requests for its id (an at-least-once signal). -/
theorem C6_receipt_per_arrival (uid : Nat) (s : SyncState) (ops : List SyncOp)
    (m : Message) (k : Nat) (hm : m.senderId ≠ uid) :
    syncRunReceipts uid s ops = pushArrivalReceipts uid ops ∧
    syncRunReceipts uid s (List.replicate k (SyncOp.pushMessage m)) =
      List.replicate k m.id := by
  refine ⟨syncRunReceipts_eq_pushArrivalReceipts uid ops s, ?_⟩
  rw [syncRunReceipts_eq_pushArrivalReceipts uid _ s]
  exact pushArrivalReceipts_replicate uid k m hm

/-- C6 witness: two duplicate pushes of the foreign message with id 7
produce the request list `[7, 7]`. -/
theorem C6_witness :
    syncRunReceipts 1 { roomId := 1, messages := [] }
        (List.replicate 2 (SyncOp.pushMessage mOther)) = List.replicate 2 mOther.id :=
  (C6_receipt_per_arrival 1 { roomId := 1, messages := [] } [] mOther 2 (by decide)).2

end ChatApp
